import Mathlib

/-
Verification of the graphql-go-helpers argument loader (args.go).

The Go source is shallowly embedded: dynamically typed Go values become the
inductive GoValue, reflect.Type values of interest become GoType, the two
maps inside ArgLoader become association lists keyed by GoType, and the
in-place mutation done by LoadArgs becomes explicit state passing (the
function returns the updated field list).  A Go call that can panic is
modelled with an outcome type carrying a panicked constructor; in particular
calling a method on a nil reflect.Type (reflect.TypeOf of a nil interface)
panics with a nil-pointer runtime error, which the embedding encodes in the
nilInterface branches.
-/

namespace GraphqlHelpers

/-- The 64 bits of a Go float64.  No float arithmetic occurs in args.go
(values are only type-asserted and copied), so the payload is kept abstract
as its bit pattern. -/
structure Float64 where
  bits : Nat
deriving DecidableEq

/-- A dynamically typed Go value (an interface value), as stored in the
raw argument map and in struct fields. -/
inductive GoValue where
  | vBool : Bool → GoValue
  | vString : String → GoValue
  | vInt : Int → GoValue
  | vFloat : Float64 → GoValue
  | vNamed : String → Nat → GoValue
deriving DecidableEq

/-- Rendering of a Float64 for fmt %v messages.  Go prints the shortest
decimal form; the embedding keeps the payload abstract, so it renders the
bit pattern injectively instead.  No claim fixes the exact float text. -/
def Float64.render (f : Float64) : String :=
  ("float64bits(") ++ toString f.bits ++ (")")

/-- fmt %v rendering of a dynamic value, used in error messages. -/
def GoValue.render : GoValue → String
  | GoValue.vBool b => if b then ("true") else ("false")
  | GoValue.vString s => s
  | GoValue.vInt n => toString n
  | GoValue.vFloat f => f.render
  | GoValue.vNamed ty payload => ty ++ ("(") ++ toString payload ++ (")")

/-- The reflect.Type values the loader distinguishes: the builtin scalar
types, the error interface, the empty interface, and named types (carrying
whether they implement the error interface). -/
inductive GoType where
  | bool : GoType
  | string : GoType
  | int : GoType
  | float64 : GoType
  | goError : GoType
  | ifaceEmpty : GoType
  | named : String → Bool → GoType
deriving DecidableEq

/-- fmt %v rendering of a reflect.Type. -/
def GoType.render : GoType → String
  | GoType.bool => ("bool")
  | GoType.string => ("string")
  | GoType.int => ("int")
  | GoType.float64 => ("float64")
  | GoType.goError => ("error")
  | GoType.ifaceEmpty => ("interface \x7b\x7d")
  | GoType.named n _ => n

/-- Whether a type implements the error interface
(reflect Implements against the error interface, args.go line 129). -/
def GoType.implementsError : GoType → Bool
  | GoType.goError => true
  | GoType.named _ b => b
  | _ => false

/-- Lookup in a Go map modelled as an association list: m[k] with the
comma-ok form. -/
def lookupA {κ β : Type} [DecidableEq κ] : List (κ × β) → κ → Option β
  | [], _ => none
  | (k2, v) :: rest, k => if k2 = k then some v else lookupA rest k

/-- Assignment m[k] = v in a Go map modelled as an association list:
replaces the existing entry for k, or appends one. -/
def insertA {κ β : Type} [DecidableEq κ] : List (κ × β) → κ → β → List (κ × β)
  | [], k, v => [(k, v)]
  | (k2, v2) :: rest, k, v =>
    if k2 = k then (k, v) :: rest else (k2, v2) :: insertA rest k v

/-- Outcome of invoking a raw (unwrapped) loader func on one value:
it returns a value with a nil error, returns a non-nil error (rendered to
its message), or panics. -/
inductive ConvRunResult where
  | ok : GoValue → ConvRunResult
  | err : String → ConvRunResult
  | panics : String → ConvRunResult

/-- A Go function value as passed to Register: its runtime name
(runtime FuncForPC), its declared input and output types (reflect NumIn,
NumOut, In, Out), and its dynamic behaviour on one argument. -/
structure GoFunc where
  name : String
  inTypes : List GoType
  outTypes : List GoType
  run : GoValue → ConvRunResult

/-- The dynamic value passed to Register: either a function or a value of
some non-function kind, the latter carrying its %v rendering. -/
inductive RegisterArg where
  | func : GoFunc → RegisterArg
  | nonFunc : String → RegisterArg

/-- A graphql.Output value (the wire type tag). -/
inductive GqlOutput where
  | boolean : GqlOutput
  | string : GqlOutput
  | int : GqlOutput
  | float : GqlOutput
  | other : String → GqlOutput
deriving DecidableEq

/-- The ArgLoader struct: a map from reflect types to wrapped loader funcs,
and a map from reflect types to graphql types. -/
structure ArgLoader where
  loaderFuncs : List (GoType × (GoValue → Except String GoValue))
  gqlTypes : List (GoType × GqlOutput)

/-- Empty returns an ArgLoader without any loader funcs enabled. -/
def Empty : ArgLoader :=
  ArgLoader.mk [] []

/-- The wrapped converter Register stores (args.go lines 142 to 155): it
invokes the raw function; a panic is recovered and turned into a
"name panicked" error; a non-nil returned error becomes an error result;
otherwise the returned value is passed through. -/
def wrapLoader (fname : String) (run : GoValue → ConvRunResult) :
    GoValue → Except String GoValue :=
  fun i =>
    match run i with
    | ConvRunResult.panics p => Except.error (fname ++ (" panicked: ") ++ p)
    | ConvRunResult.err msg => Except.error msg
    | ConvRunResult.ok v => Except.ok v

/-- Register (args.go lines 107 to 159): validates that f is a function
taking one argument and returning a value and an error, rejects a duplicate
registration for the declared first output type, and on success stores the
wrapped converter and the wire type under that output type.  The Go method
mutates the receiver; the embedding returns the error together with the
resulting loader (unchanged on error). -/
def Register (e : ArgLoader) (f : RegisterArg) (gqlType : GqlOutput) :
    Option String × ArgLoader :=
  match f with
  | RegisterArg.nonFunc desc => (some (desc ++ (" is not a func")), e)
  | RegisterArg.func g =>
    if g.inTypes.length ≠ 1 then
      (some (("loader func should accept 1 interface\x7b\x7d argument. ")
        ++ g.name ++ (" accepts ") ++ toString g.inTypes.length
        ++ (" arguments")), e)
    else if g.outTypes.length ≠ 2 then
      (some (("loader func should return 2 arguments. ")
        ++ g.name ++ (" returns ") ++ toString g.outTypes.length
        ++ (" arguments")), e)
    else if !(g.outTypes.getD 1 (GoType.named ("invalid") false)).implementsError then
      (some (("loader func\x27s last return value should be error. ")
        ++ g.name ++ ("\x27s last return value is ")
        ++ (g.outTypes.getD 1 (GoType.named ("invalid") false)).render), e)
    else if (lookupA e.loaderFuncs (g.outTypes.getD 0 (GoType.named ("invalid") false))).isSome then
      (some (("a loader func has already been registered for the ")
        ++ (g.outTypes.getD 0 (GoType.named ("invalid") false)).render
        ++ (" type.  cannot also register ") ++ g.name), e)
    else
      (none, ArgLoader.mk
        (insertA e.loaderFuncs (g.outTypes.getD 0 (GoType.named ("invalid") false))
          (wrapLoader g.name g.run))
        (insertA e.gqlTypes (g.outTypes.getD 0 (GoType.named ("invalid") false)) gqlType))

/-- One struct field's static metadata: its Go name, its reflect type, and
its three tags.  argTag and requiredTag are read with Tag.Lookup (presence
matters), descTag with Tag.Get (absent reads as the empty string). -/
structure StructField where
  name : String
  type : GoType
  argTag : Option String
  requiredTag : Option String
  descTag : Option String
deriving DecidableEq

/-- Tag.Get of the desc tag: the tag value, or the empty string when the
tag is absent. -/
def StructField.descOf (f : StructField) : String :=
  f.descTag.getD ("")

/-- One graphql.ArgumentConfig as built by SafeArgsConfig.  The Type field
is the Go map read gqlTypes[field.Type], whose zero value (a nil interface)
is modelled as none. -/
structure ArgumentConfig where
  type : Option GqlOutput
  description : String
deriving DecidableEq

/-- The dynamic value passed to SafeArgsConfig or ArgsConfig: nil, a struct
(only its field metadata matters), a pointer to a struct, a pointer to a
non-struct, or a non-pointer non-struct value.  The desc strings carry the
%v rendering of the original value for error messages. -/
inductive SchemaInput where
  | nilInterface : SchemaInput
  | structVal : List StructField → SchemaInput
  | ptrStruct : List StructField → SchemaInput
  | ptrNonStruct : String → SchemaInput
  | nonStruct : String → SchemaInput

/-- Outcome of SafeArgsConfig: a panic (method call on a nil reflect.Type),
an error, or the argument-config map (argument name to config, in Go map
assignment order). -/
inductive ConfigOutcome where
  | panicked : String → ConfigOutcome
  | error : String → ConfigOutcome
  | ok : List (String × ArgumentConfig) → ConfigOutcome
deriving DecidableEq

/-- The panic message of the Go runtime when a method is called through a
nil interface, as happens on reflect.TypeOf(nil).Kind(). -/
def nilKindPanicMsg : String :=
  ("runtime error: invalid memory address or nil pointer dereference")

/-- The field loop of SafeArgsConfig (args.go lines 90 to 101): fields
without the arg tag are skipped; each tagged field assigns
out[argName] = ArgumentConfig with the wire type looked up from gqlTypes
(zero value when unregistered) and the desc tag. -/
def confFieldsAux (e : ArgLoader) (acc : List (String × ArgumentConfig)) :
    List StructField → List (String × ArgumentConfig)
  | [] => acc
  | f :: rest =>
    match f.argTag with
    | none => confFieldsAux e acc rest
    | some argName =>
      confFieldsAux e
        (insertA acc argName (ArgumentConfig.mk (lookupA e.gqlTypes f.type) f.descOf))
        rest

/-- The argument-config map SafeArgsConfig builds for a struct's fields. -/
def confFields (e : ArgLoader) (fields : List StructField) :
    List (String × ArgumentConfig) :=
  confFieldsAux e [] fields

/-- SafeArgsConfig (args.go lines 74 to 103): accepts a struct or a pointer
to a struct (a nil argument panics inside reflect), fails with a
"not a struct" error otherwise, and otherwise never fails: it returns the
config map built by the field loop. -/
def SafeArgsConfig (e : ArgLoader) (i : SchemaInput) : ConfigOutcome :=
  match i with
  | SchemaInput.nilInterface => ConfigOutcome.panicked nilKindPanicMsg
  | SchemaInput.nonStruct desc => ConfigOutcome.error (desc ++ (" is not a struct"))
  | SchemaInput.ptrNonStruct desc => ConfigOutcome.error (desc ++ (" is not a struct"))
  | SchemaInput.structVal fields => ConfigOutcome.ok (confFields e fields)
  | SchemaInput.ptrStruct fields => ConfigOutcome.ok (confFields e fields)

/-- Outcome of the panicking convenience wrapper ArgsConfig. -/
inductive PanicOr (α : Type) where
  | panicked : String → PanicOr α
  | ok : α → PanicOr α
deriving DecidableEq

/-- ArgsConfig (args.go lines 66 to 72): forwards to SafeArgsConfig and
panics on error. -/
def ArgsConfig (e : ArgLoader) (i : SchemaInput) :
    PanicOr (List (String × ArgumentConfig)) :=
  match SafeArgsConfig e i with
  | ConfigOutcome.panicked m => PanicOr.panicked m
  | ConfigOutcome.error m =>
    PanicOr.panicked (("could not configure arguments: ") ++ m)
  | ConfigOutcome.ok c => PanicOr.ok c

/-- strconv.ParseBool: accepts exactly the twelve Go boolean literals and
fails on anything else. -/
def parseBool (s : String) : Except Unit Bool :=
  if s = ("1") ∨ s = ("t") ∨ s = ("T") ∨ s = ("true") ∨ s = ("TRUE") ∨ s = ("True") then
    Except.ok true
  else if s = ("0") ∨ s = ("f") ∨ s = ("F") ∨ s = ("false") ∨ s = ("FALSE") ∨ s = ("False") then
    Except.ok false
  else
    Except.error ()

/-- The destination argument of LoadArgs: nil, a non-pointer, a pointer to
a non-struct, or a pointer to a struct carrying its current field values.
The desc strings carry the %v rendering for error messages. -/
inductive Dest where
  | nilInterface : Dest
  | nonPtr : String → Dest
  | ptrNonStruct : String → Dest
  | ptrStruct : List (StructField × GoValue) → Dest
deriving DecidableEq

/-- Outcome of LoadArgs: a panic, or the returned error paired with the
destination state after the call (Go mutates the struct in place; the
embedding returns it). -/
inductive LoadOutcome where
  | panicked : String → LoadOutcome
  | error : String → Dest → LoadOutcome
  | ok : Dest → LoadOutcome
deriving DecidableEq

/-- What one iteration of the LoadArgs field loop (args.go lines 175 to
211) does to its field: leave it untouched and continue, write a converted
value, or return an error. -/
inductive FieldStep where
  | skip : FieldStep
  | setv : GoValue → FieldStep
  | fail : String → FieldStep
deriving DecidableEq

/-- Whether a field step aborts the loop. -/
def FieldStep.isFail : FieldStep → Bool
  | FieldStep.fail _ => true
  | _ => false

/-- One iteration of the LoadArgs field loop for one field: skip untagged
fields; for a tagged field whose key is absent, consult the required tag
(absent means optional, an unparseable value is an error, required means a
"is required" error); for a present key, look up the loader func for the
field type and run it, failing with a "cannot populate" error on a
converter error. -/
def processField (e : ArgLoader) (args : List (String × GoValue))
    (f : StructField) : FieldStep :=
  match f.argTag with
  | none => FieldStep.skip
  | some argKey =>
    match lookupA args argKey with
    | none =>
      match f.requiredTag with
      | none => FieldStep.skip
      | some requiredVal =>
        match parseBool requiredVal with
        | Except.error _ =>
          FieldStep.fail (requiredVal ++ (" is not a valid \x27required\x27 tag value"))
        | Except.ok required =>
          if required then FieldStep.fail (argKey ++ (" is required"))
          else FieldStep.skip
    | some interfaceVal =>
      match lookupA e.loaderFuncs f.type with
      | none =>
        FieldStep.fail (("no loader function found for type ") ++ f.type.render)
      | some loaderFunc =>
        match loaderFunc interfaceVal with
        | Except.error err =>
          FieldStep.fail (("cannot populate ") ++ f.name ++ (": ") ++ err)
        | Except.ok toSet => FieldStep.setv toSet

/-- The LoadArgs field loop over the whole field list: fields are processed
in declaration order, writes land in place, and the first failure aborts
the loop, leaving the current and all later fields at their prior values
(earlier writes are kept, matching the in-place mutation of the source). -/
def loadFields (e : ArgLoader) (args : List (String × GoValue)) :
    List (StructField × GoValue) → Option String × List (StructField × GoValue)
  | [] => (none, [])
  | (f, v) :: rest =>
    match processField e args f with
    | FieldStep.fail msg => (some msg, (f, v) :: rest)
    | FieldStep.skip =>
      let r := loadFields e args rest
      (r.1, (f, v) :: r.2)
    | FieldStep.setv v2 =>
      let r := loadFields e args rest
      (r.1, (f, v2) :: r.2)

/-- Packages the loop result as the outcome of LoadArgs on a pointer to a
struct. -/
def loadOutcomeOf (r : Option String × List (StructField × GoValue)) : LoadOutcome :=
  match r.1 with
  | none => LoadOutcome.ok (Dest.ptrStruct r.2)
  | some msg => LoadOutcome.error msg (Dest.ptrStruct r.2)

/-- LoadArgs (args.go lines 162 to 213): a nil destination panics inside
reflect; a non-pointer or pointer to a non-struct is an error; otherwise
the field loop runs.  The args list models p.Args, the only part of
graphql.ResolveParams the source reads. -/
def LoadArgs (e : ArgLoader) (args : List (String × GoValue)) (c : Dest) :
    LoadOutcome :=
  match c with
  | Dest.nilInterface => LoadOutcome.panicked nilKindPanicMsg
  | Dest.nonPtr desc => LoadOutcome.error (desc ++ (" is not a pointer")) c
  | Dest.ptrNonStruct desc =>
    LoadOutcome.error (desc ++ (" is not a pointer to a struct")) c
  | Dest.ptrStruct fields => loadOutcomeOf (loadFields e args fields)

/-- LoadBool (args.go lines 215 to 221): type-asserts the value against
bool, returning it unchanged on success and (false, error) otherwise. -/
def LoadBool (i : GoValue) : GoValue × Option String :=
  match i with
  | GoValue.vBool b => (GoValue.vBool b, none)
  | _ => (GoValue.vBool false, some (i.render ++ (" is not a bool")))

/-- LoadString (args.go lines 223 to 229). -/
def LoadString (i : GoValue) : GoValue × Option String :=
  match i with
  | GoValue.vString s => (GoValue.vString s, none)
  | _ => (GoValue.vString (""), some (i.render ++ (" is not a string")))

/-- LoadInt (args.go lines 231 to 237). -/
def LoadInt (i : GoValue) : GoValue × Option String :=
  match i with
  | GoValue.vInt n => (GoValue.vInt n, none)
  | _ => (GoValue.vInt 0, some (i.render ++ (" is not an int")))

/-- LoadFloat (args.go lines 239 to 245). -/
def LoadFloat (i : GoValue) : GoValue × Option String :=
  match i with
  | GoValue.vFloat f => (GoValue.vFloat f, none)
  | _ => (GoValue.vFloat (Float64.mk 0), some (i.render ++ (" is not a float")))

/-- Lifts a pure Go converter, which returns a value and an optional error
and never panics, to the dynamic behaviour used by the registry. -/
def runOf (f : GoValue → GoValue × Option String) (i : GoValue) : ConvRunResult :=
  match f i with
  | (v, none) => ConvRunResult.ok v
  | (_, some msg) => ConvRunResult.err msg

/-- LoadBool as a reflected function value. -/
def loadBoolFunc : GoFunc :=
  GoFunc.mk ("github.com/btubbs/graphql-go-helpers.LoadBool")
    [GoType.ifaceEmpty] [GoType.bool, GoType.goError] (runOf LoadBool)

/-- LoadString as a reflected function value. -/
def loadStringFunc : GoFunc :=
  GoFunc.mk ("github.com/btubbs/graphql-go-helpers.LoadString")
    [GoType.ifaceEmpty] [GoType.string, GoType.goError] (runOf LoadString)

/-- LoadInt as a reflected function value. -/
def loadIntFunc : GoFunc :=
  GoFunc.mk ("github.com/btubbs/graphql-go-helpers.LoadInt")
    [GoType.ifaceEmpty] [GoType.int, GoType.goError] (runOf LoadInt)

/-- LoadFloat as a reflected function value. -/
def loadFloatFunc : GoFunc :=
  GoFunc.mk ("github.com/btubbs/graphql-go-helpers.LoadFloat")
    [GoType.ifaceEmpty] [GoType.float64, GoType.goError] (runOf LoadFloat)

/-- DefaultLoaders (args.go lines 20 to 28): the four builtin converters
with their graphql types, in declaration order. -/
def DefaultLoaders : List (RegisterArg × GqlOutput) :=
  [(RegisterArg.func loadBoolFunc, GqlOutput.boolean),
   (RegisterArg.func loadStringFunc, GqlOutput.string),
   (RegisterArg.func loadIntFunc, GqlOutput.int),
   (RegisterArg.func loadFloatFunc, GqlOutput.float)]

/-- The registration loop of New: registers each entry in order, aborting
on the first error. -/
def registerAll (e : ArgLoader) : List (RegisterArg × GqlOutput) → Except String ArgLoader
  | [] => Except.ok e
  | (f, g) :: rest =>
    match Register e f g with
    | (some m, _) => Except.error m
    | (none, e2) => registerAll e2 rest

/-- New (args.go lines 33 to 42): an ArgLoader with the default loader
funcs enabled. -/
def New : Except String ArgLoader :=
  registerAll Empty DefaultLoaders

/-- The process-wide default loader built by init (args.go lines 262 to
270).  init panics when New fails; that branch is unreachable for the
hardcoded defaults, and the embedding falls back to Empty there. -/
def defaultLoader : ArgLoader :=
  match New with
  | Except.ok e => e
  | Except.error _ => Empty

/-! Concrete fixtures used by witnesses and counterexamples.  They mirror
the helloArgs example of the repository: bool-typed fields with arg tags
"a", "b" (required), "d", and one with an unparseable required tag. -/

/-- An optional bool field exposed as argument "a". -/
def exFieldA : StructField :=
  StructField.mk ("A") GoType.bool (some ("a")) none none

/-- A required bool field exposed as argument "b". -/
def exFieldB : StructField :=
  StructField.mk ("B") GoType.bool (some ("b")) (some ("true")) none

/-- A bool field exposed as argument "a" whose required tag does not parse
as a boolean literal. -/
def exFieldC : StructField :=
  StructField.mk ("C") GoType.bool (some ("a")) (some ("banana")) none

/-- An optional bool field exposed as argument "d". -/
def exFieldD : StructField :=
  StructField.mk ("D") GoType.bool (some ("d")) none none

/-- A loader with only the bool converter registered. -/
def bLoader : ArgLoader :=
  (Register Empty (RegisterArg.func loadBoolFunc) GqlOutput.boolean).2

/-- A converter function value that panics on every input, for exercising
the panic-recovery wrapper. -/
def panicFunc : GoFunc :=
  GoFunc.mk ("panicky") [GoType.ifaceEmpty]
    [GoType.named ("mytype") false, GoType.goError]
    (fun _ => ConvRunResult.panics ("boom"))

/-- A loader with only the panicking converter registered, under the
named type mytype. -/
def pLoader : ArgLoader :=
  (Register Empty (RegisterArg.func panicFunc) (GqlOutput.other ("custom"))).2

/-- A field of the named type mytype, exposed as argument "m". -/
def exFieldM : StructField :=
  StructField.mk ("M") (GoType.named ("mytype") false) (some ("m")) none none

/-! Helper lemmas about the association-list map operations and the field
loop. -/

/-- Reading a map right after writing key k yields the written value. -/
theorem lookupA_insertA_self {κ β : Type} [DecidableEq κ]
    (l : List (κ × β)) (k : κ) (v : β) :
    lookupA (insertA l k v) k = some v := by
  induction l with
  | nil => simp [insertA, lookupA]
  | cons hd tl ih =>
    cases hd with
    | mk k2 v2 =>
      by_cases h : k2 = k
      · simp [insertA, h, lookupA]
      · simp [insertA, h, lookupA, ih]

/-- Writing key k2 does not change the value read at a different key k. -/
theorem lookupA_insertA_ne {κ β : Type} [DecidableEq κ]
    (l : List (κ × β)) (k k2 : κ) (v : β) (h : k2 ≠ k) :
    lookupA (insertA l k2 v) k = lookupA l k := by
  induction l with
  | nil => simp [insertA, lookupA, h]
  | cons hd tl ih =>
    cases hd with
    | mk k3 v3 =>
      by_cases h3 : k3 = k2
      · simp [insertA, h3, lookupA, h]
      · simp [insertA, h3, lookupA, ih]

/-- A prefix of fields that all step to skip passes through the field loop
unchanged, and the loop result on the rest is unaffected. -/
theorem loadFields_skip_front (e : ArgLoader) (args : List (String × GoValue)) :
    ∀ (pre rest : List (StructField × GoValue)),
    (∀ gw ∈ pre, processField e args gw.1 = FieldStep.skip) →
    loadFields e args (pre ++ rest)
      = ((loadFields e args rest).1, pre ++ (loadFields e args rest).2) := by
  intro pre
  induction pre with
  | nil => intro rest _; simp [loadFields]
  | cons hd tl ih =>
    intro rest h
    cases hd with
    | mk g w =>
      have hg : processField e args g = FieldStep.skip := h (g, w) (by simp)
      have htl := ih rest (fun gw hm => h gw (by simp [hm]))
      simp [loadFields, hg, htl]

/-- A field whose step is skip is a no-op of the field loop: deleting it
from the field list changes neither the returned error nor any other
field's final value, and the field itself keeps its prior value. -/
theorem loadFields_skip_frame (e : ArgLoader) (args : List (String × GoValue))
    (f : StructField) (hf : processField e args f = FieldStep.skip) :
    ∀ (pre post : List (StructField × GoValue)) (v : GoValue),
    ∃ r pre2 post2, pre2.length = pre.length ∧
      loadFields e args (pre ++ (f, v) :: post) = (r, pre2 ++ (f, v) :: post2) ∧
      loadFields e args (pre ++ post) = (r, pre2 ++ post2) := by
  intro pre
  induction pre with
  | nil =>
    intro post v
    refine ⟨(loadFields e args post).1, [], (loadFields e args post).2, rfl, ?_, rfl⟩
    simp [loadFields, hf]
  | cons hd tl ih =>
    intro post v
    obtain ⟨r, pre2, post2, hlen, h1, h2⟩ := ih post v
    cases hd with
    | mk g w =>
      cases hg : processField e args g with
      | fail msg =>
        refine ⟨some msg, (g, w) :: tl, post, by simp, ?_, ?_⟩
        · simp [loadFields, hg]
        · simp [loadFields, hg]
      | skip =>
        refine ⟨r, (g, w) :: pre2, post2, by simp [hlen], ?_, ?_⟩
        · simp [loadFields, hg, h1]
        · simp [loadFields, hg, h2]
      | setv u =>
        refine ⟨r, (g, u) :: pre2, post2, by simp [hlen], ?_, ?_⟩
        · simp [loadFields, hg, h1]
        · simp [loadFields, hg, h2]

/-- A prefix of fields none of whose steps fail passes through the field
loop into a prefix of the same length (its fields possibly rewritten), and
the loop result on the rest is unaffected. -/
theorem loadFields_nofail_front (e : ArgLoader) (args : List (String × GoValue)) :
    ∀ (pre rest : List (StructField × GoValue)),
    (∀ gw ∈ pre, (processField e args gw.1).isFail = false) →
    ∃ pre2, pre2.length = pre.length ∧
      loadFields e args (pre ++ rest)
        = ((loadFields e args rest).1, pre2 ++ (loadFields e args rest).2) := by
  intro pre
  induction pre with
  | nil => intro rest _; exact ⟨[], rfl, by simp [loadFields]⟩
  | cons hd tl ih =>
    intro rest h
    cases hd with
    | mk g w =>
      have hg := h (g, w) (by simp)
      obtain ⟨pre2, hlen, htl⟩ := ih rest (fun gw hm => h gw (by simp [hm]))
      cases hstep : processField e args g with
      | fail msg => rw [hstep] at hg; simp [FieldStep.isFail] at hg
      | skip =>
        exact ⟨(g, w) :: pre2, by simp [hlen], by simp [loadFields, hstep, htl]⟩
      | setv u =>
        exact ⟨(g, u) :: pre2, by simp [hlen], by simp [loadFields, hstep, htl]⟩

/-- When no field's step fails, the field loop returns a nil error. -/
theorem loadFields_ok_of_nofail (e : ArgLoader) (args : List (String × GoValue)) :
    ∀ (l : List (StructField × GoValue)),
    (∀ gw ∈ l, (processField e args gw.1).isFail = false) →
    (loadFields e args l).1 = none := by
  intro l
  induction l with
  | nil => intro _; simp [loadFields]
  | cons hd tl ih =>
    intro h
    cases hd with
    | mk g w =>
      have hg := h (g, w) (by simp)
      have htl := ih (fun gw hm => h gw (by simp [hm]))
      cases hstep : processField e args g with
      | fail msg => rw [hstep] at hg; simp [FieldStep.isFail] at hg
      | skip => simp [loadFields, hstep, htl]
      | setv u => simp [loadFields, hstep, htl]

/-- A field without the arg tag steps to skip whatever its other
annotations are. -/
theorem processField_skip_of_untagged (e : ArgLoader)
    (args : List (String × GoValue)) (f : StructField) (hf : f.argTag = none) :
    processField e args f = FieldStep.skip := by
  simp [processField, hf]

/-- An absent-and-optional field steps to skip. -/
theorem processField_skip_of_optional_absent (e : ArgLoader)
    (args : List (String × GoValue)) (f : StructField) (k : String)
    (hk : f.argTag = some k) (habs : lookupA args k = none)
    (hopt : f.requiredTag = none ∨
      ∃ s, f.requiredTag = some s ∧ parseBool s = Except.ok false) :
    processField e args f = FieldStep.skip := by
  rcases hopt with h | ⟨s, hs, hp⟩
  · simp [processField, hk, habs, h]
  · simp [processField, hk, habs, hs, hp]

/-- A field without the arg tag contributes nothing to the schema: the
config map is the one computed with the field deleted. -/
theorem confFieldsAux_erase_untagged (e : ArgLoader) (f : StructField)
    (hf : f.argTag = none) :
    ∀ (pre post : List StructField) (acc : List (String × ArgumentConfig)),
    confFieldsAux e acc (pre ++ f :: post) = confFieldsAux e acc (pre ++ post) := by
  intro pre
  induction pre with
  | nil => intro post acc; simp [confFieldsAux, hf]
  | cons hd tl ih =>
    intro post acc
    cases hg : hd.argTag with
    | none => simp [confFieldsAux, hg, ih]
    | some n => simp [confFieldsAux, hg, ih]

/-- When no field carries arg tag k, the schema loop leaves the entry for
k as it stands in the accumulator. -/
theorem lookupA_confFieldsAux_absent (e : ArgLoader) (k : String) :
    ∀ (fields : List StructField) (acc : List (String × ArgumentConfig)),
    (∀ f2 ∈ fields, f2.argTag ≠ some k) →
    lookupA (confFieldsAux e acc fields) k = lookupA acc k := by
  intro fields
  induction fields with
  | nil => intro acc _; simp [confFieldsAux]
  | cons hd tl ih =>
    intro acc h
    have hhd := h hd (by simp)
    have htl : ∀ f2 ∈ tl, f2.argTag ≠ some k :=
      fun f2 hm => h f2 (by simp [hm])
    cases hg : hd.argTag with
    | none => simp [confFieldsAux, hg, ih _ htl]
    | some n =>
      rw [hg] at hhd
      have hnk : n ≠ k := fun he => hhd (by rw [he])
      rw [confFieldsAux]
      simp only [hg]
      rw [ih _ htl, lookupA_insertA_ne _ _ _ _ hnk]

/-- When field f is the unique carrier of arg tag k, the schema loop maps
k to f's config: the wire type looked up for f's type and f's description
tag. -/
theorem lookupA_confFieldsAux_unique (e : ArgLoader) (k : String)
    (f : StructField) (hk : f.argTag = some k) :
    ∀ (fields : List StructField) (acc : List (String × ArgumentConfig)),
    f ∈ fields → (∀ f2 ∈ fields, f2.argTag = some k → f2 = f) →
    lookupA (confFieldsAux e acc fields) k
      = some (ArgumentConfig.mk (lookupA e.gqlTypes f.type) f.descOf) := by
  intro fields
  induction fields with
  | nil => intro acc hmem _; cases hmem
  | cons hd tl ih =>
    intro acc hmem huniq
    by_cases hfr : f ∈ tl
    · have huniq2 : ∀ f2 ∈ tl, f2.argTag = some k → f2 = f :=
        fun f2 hm h2 => huniq f2 (by simp [hm]) h2
      cases hg : hd.argTag with
      | none => simp [confFieldsAux, hg, ih _ hfr huniq2]
      | some n =>
        rw [confFieldsAux]
        simp only [hg]
        exact ih _ hfr huniq2
    · have hhd : f = hd := by
        rcases List.mem_cons.mp hmem with h | h
        · exact h
        · exact absurd h hfr
      have htl : ∀ f2 ∈ tl, f2.argTag ≠ some k := by
        intro f2 hm h2
        exact hfr ((huniq f2 (by simp [hm]) h2) ▸ hm)
      rw [confFieldsAux]
      rw [← hhd]
      simp only [hk]
      rw [lookupA_confFieldsAux_absent e k tl _ htl, lookupA_insertA_self]

/-- Claim C9: calling SafeArgsConfig or LoadArgs with a nil interface value
as the record or destination raises a panic (the nil reflect.Type method
call) rather than returning the not-a-struct or not-a-pointer error. -/
theorem nil_input_panics (e : ArgLoader) (args : List (String × GoValue)) :
    SafeArgsConfig e SchemaInput.nilInterface = ConfigOutcome.panicked nilKindPanicMsg ∧
    LoadArgs e args Dest.nilInterface = LoadOutcome.panicked nilKindPanicMsg :=
  ⟨rfl, rfl⟩

/-- Claim C7: each builtin converter returns the raw value unchanged when
its dynamic type is exactly the expected one, and otherwise returns the
zero value with a "is not a" error naming the value; in particular a
float64 raw value given to LoadInt yields the error, not a converted
integer. -/
theorem builtin_loaders_exact (v : GoValue) :
    (∀ b, LoadBool (GoValue.vBool b) = (GoValue.vBool b, none)) ∧
    ((∀ b, v ≠ GoValue.vBool b) →
      LoadBool v = (GoValue.vBool false, some (v.render ++ (" is not a bool")))) ∧
    (∀ s, LoadString (GoValue.vString s) = (GoValue.vString s, none)) ∧
    ((∀ s, v ≠ GoValue.vString s) →
      LoadString v = (GoValue.vString (""), some (v.render ++ (" is not a string")))) ∧
    (∀ n, LoadInt (GoValue.vInt n) = (GoValue.vInt n, none)) ∧
    ((∀ n, v ≠ GoValue.vInt n) →
      LoadInt v = (GoValue.vInt 0, some (v.render ++ (" is not an int")))) ∧
    (∀ f, LoadFloat (GoValue.vFloat f) = (GoValue.vFloat f, none)) ∧
    ((∀ f, v ≠ GoValue.vFloat f) →
      LoadFloat v = (GoValue.vFloat (Float64.mk 0), some (v.render ++ (" is not a float")))) ∧
    (∀ f, LoadInt (GoValue.vFloat f)
      = (GoValue.vInt 0, some ((GoValue.vFloat f).render ++ (" is not an int")))) := by
  refine ⟨fun b => rfl, ?_, fun s => rfl, ?_, fun n => rfl, ?_, fun f => rfl, ?_, fun f => rfl⟩
  · intro h
    cases v with
    | vBool b => exact absurd rfl (h b)
    | vString s => rfl
    | vInt n => rfl
    | vFloat f => rfl
    | vNamed ty p => rfl
  · intro h
    cases v with
    | vBool b => rfl
    | vString s => exact absurd rfl (h s)
    | vInt n => rfl
    | vFloat f => rfl
    | vNamed ty p => rfl
  · intro h
    cases v with
    | vBool b => rfl
    | vString s => rfl
    | vInt n => exact absurd rfl (h n)
    | vFloat f => rfl
    | vNamed ty p => rfl
  · intro h
    cases v with
    | vBool b => rfl
    | vString s => rfl
    | vInt n => rfl
    | vFloat f => exact absurd rfl (h f)
    | vNamed ty p => rfl

/-- Witness for C7: a float64 value fed to LoadInt yields the zero int and
the "is not an int" error. -/
theorem builtin_loaders_exact_witness :
    (∀ n : Int, GoValue.vFloat (Float64.mk 3) ≠ GoValue.vInt n) ∧
    LoadInt (GoValue.vFloat (Float64.mk 3))
      = (GoValue.vInt 0,
        some ((GoValue.vFloat (Float64.mk 3)).render ++ (" is not an int"))) :=
  ⟨(fun _ h => nomatch h),
    (builtin_loaders_exact (GoValue.vFloat (Float64.mk 3))).2.2.2.2.2.1
      (fun _ h => nomatch h)⟩

/-- Claim C2: registering a second converter whose declared first output
type already holds a registered converter fails with the duplicate-type
error, and the registry still maps that type to the first converter. -/
theorem register_duplicate (e : ArgLoader) (g : GoFunc) (gql : GqlOutput)
    (o0 o1 : GoType) (c : GoValue → Except String GoValue)
    (hin : g.inTypes.length = 1) (hout : g.outTypes = [o0, o1])
    (herr : o1.implementsError = true)
    (hdup : lookupA e.loaderFuncs o0 = some c) :
    Register e (RegisterArg.func g) gql
      = (some (("a loader func has already been registered for the ")
          ++ o0.render ++ (" type.  cannot also register ") ++ g.name), e) ∧
    lookupA (Register e (RegisterArg.func g) gql).2.loaderFuncs o0 = some c := by
  have h1 : Register e (RegisterArg.func g) gql
      = (some (("a loader func has already been registered for the ")
          ++ o0.render ++ (" type.  cannot also register ") ++ g.name), e) := by
    simp [Register, hin, hout, herr, hdup]
  exact ⟨h1, by rw [h1]; exact hdup⟩

/-- Witness for C2: registering LoadBool a second time on a loader that
already has the bool converter fails and leaves the loader unchanged. -/
theorem register_duplicate_witness :
    loadBoolFunc.inTypes.length = 1 ∧
    loadBoolFunc.outTypes = [GoType.bool, GoType.goError] ∧
    GoType.goError.implementsError = true ∧
    lookupA bLoader.loaderFuncs GoType.bool
      = some (wrapLoader loadBoolFunc.name loadBoolFunc.run) ∧
    Register bLoader (RegisterArg.func loadBoolFunc) GqlOutput.boolean
      = (some (("a loader func has already been registered for the ")
          ++ GoType.bool.render ++ (" type.  cannot also register ")
          ++ loadBoolFunc.name), bLoader) := by
  refine ⟨rfl, rfl, rfl, rfl, ?_⟩
  exact (register_duplicate bLoader loadBoolFunc GqlOutput.boolean GoType.bool
    GoType.goError (wrapLoader loadBoolFunc.name loadBoolFunc.run)
    rfl rfl rfl rfl).1

/-- Claim C10: whenever Register returns an error the loader is exactly
unchanged, and on success both maps gain an entry under the same
output-type key, a key that was previously unregistered. -/
theorem register_error_frame (e : ArgLoader) (f : RegisterArg) (gql : GqlOutput) :
    (∀ m e2, Register e f gql = (some m, e2) → e2 = e) ∧
    (∀ e2, Register e f gql = (none, e2) → ∃ t w,
      lookupA e.loaderFuncs t = none ∧
      e2.loaderFuncs = insertA e.loaderFuncs t w ∧
      e2.gqlTypes = insertA e.gqlTypes t gql ∧
      lookupA e2.loaderFuncs t = some w ∧
      lookupA e2.gqlTypes t = some gql) := by
  cases f with
  | nonFunc desc =>
    constructor
    · intro m e2 h
      simp only [Register, Prod.mk.injEq] at h
      exact h.2.symm
    · intro e2 h
      simp only [Register, Prod.mk.injEq] at h
      exact absurd h.1 (by simp)
  | func g =>
    constructor
    · intro m e2 h
      simp only [Register] at h
      split_ifs at h with h1 h2 h3 h4
      · simp only [Prod.mk.injEq] at h
        exact h.2.symm
      · simp only [Prod.mk.injEq] at h
        exact h.2.symm
      · simp only [Prod.mk.injEq] at h
        exact h.2.symm
      · simp only [Prod.mk.injEq] at h
        exact h.2.symm
      · simp only [Prod.mk.injEq] at h
        exact absurd h.1 (by simp)
    · intro e2 h
      simp only [Register] at h
      split_ifs at h with h1 h2 h3 h4
      · simp only [Prod.mk.injEq] at h
        exact absurd h.1 (by simp)
      · simp only [Prod.mk.injEq] at h
        exact absurd h.1 (by simp)
      · simp only [Prod.mk.injEq] at h
        exact absurd h.1 (by simp)
      · simp only [Prod.mk.injEq] at h
        exact absurd h.1 (by simp)
      · simp only [Prod.mk.injEq] at h
        refine ⟨g.outTypes.getD 0 (GoType.named ("invalid") false),
          wrapLoader g.name g.run, ?_, ?_, ?_, ?_, ?_⟩
        · exact Option.not_isSome_iff_eq_none.mp h4
        · rw [← h.2]
        · rw [← h.2]
        · rw [← h.2]
          exact lookupA_insertA_self _ _ _
        · rw [← h.2]
          exact lookupA_insertA_self _ _ _

/-- Witness for C10: the failed duplicate registration of LoadBool leaves
the loader unchanged. -/
theorem register_error_frame_witness :
    (Register bLoader (RegisterArg.func loadBoolFunc) GqlOutput.boolean).2 = bLoader :=
  (register_error_frame bLoader (RegisterArg.func loadBoolFunc) GqlOutput.boolean).1
    (("a loader func has already been registered for the ")
      ++ GoType.bool.render ++ (" type.  cannot also register ") ++ loadBoolFunc.name)
    ((Register bLoader (RegisterArg.func loadBoolFunc) GqlOutput.boolean).2) rfl

/-- Claim C1 (amended): when an arg-annotated field whose required tag
parses to true has no entry under its argument name, and every field
declared before it is either un-annotated or absent-and-optional (so no
earlier field is written or fails first), LoadArgs returns the
"is required" error and no field of the destination struct is mutated. -/
theorem loadArgs_required_missing (e : ArgLoader) (args : List (String × GoValue))
    (pre post : List (StructField × GoValue)) (f : StructField) (v : GoValue)
    (k s : String)
    (hpre : ∀ gw ∈ pre, processField e args gw.1 = FieldStep.skip)
    (hk : f.argTag = some k) (habs : lookupA args k = none)
    (hreq : f.requiredTag = some s) (hparse : parseBool s = Except.ok true) :
    LoadArgs e args (Dest.ptrStruct (pre ++ (f, v) :: post))
      = LoadOutcome.error (k ++ (" is required"))
          (Dest.ptrStruct (pre ++ (f, v) :: post)) := by
  have hstep : processField e args f = FieldStep.fail (k ++ (" is required")) := by
    simp [processField, hk, habs, hreq, hparse]
  have hload : loadFields e args ((f, v) :: post)
      = (some (k ++ (" is required")), (f, v) :: post) := by
    simp [loadFields, hstep]
  have hfront := loadFields_skip_front e args pre ((f, v) :: post) hpre
  rw [hload] at hfront
  simp [LoadArgs, hfront, loadOutcomeOf]

/-- Witness for C1: a struct whose only field is required and absent from
the raw map fails with the "is required" error, fields untouched. -/
theorem loadArgs_required_missing_witness :
    parseBool ("true") = Except.ok true ∧
    LoadArgs defaultLoader [] (Dest.ptrStruct [(exFieldB, GoValue.vBool false)])
      = LoadOutcome.error (("b") ++ (" is required"))
          (Dest.ptrStruct [(exFieldB, GoValue.vBool false)]) :=
  ⟨rfl, loadArgs_required_missing defaultLoader [] [] [] exFieldB (GoValue.vBool false)
    ("b") ("true") (fun _ hm => nomatch hm) rfl rfl rfl rfl⟩

/-- Counterexample for C1 as stated: with an optional present field "a"
declared before the missing required field "b", LoadArgs returns the
"b is required" error but has already written field A (its value changed
from false to true), so a field was mutated by the call. -/
theorem loadArgs_required_missing_cex :
    LoadArgs defaultLoader [(("a"), GoValue.vBool true)]
      (Dest.ptrStruct [(exFieldA, GoValue.vBool false), (exFieldB, GoValue.vBool false)])
      = LoadOutcome.error (("b is required"))
          (Dest.ptrStruct [(exFieldA, GoValue.vBool true), (exFieldB, GoValue.vBool false)]) ∧
    (GoValue.vBool true ≠ GoValue.vBool false) :=
  ⟨rfl, by decide⟩

/-- Claim C4 (amended): a field whose required tag does not parse as a
boolean literal makes LoadArgs fail with the invalid-required-tag error
when the field's argument name is absent from the raw map (and no earlier
field fails first); when the argument name is present, the required tag is
never consulted and population proceeds. -/
theorem loadArgs_bad_required_tag (e : ArgLoader) (args : List (String × GoValue))
    (pre post : List (StructField × GoValue)) (f : StructField) (v : GoValue)
    (k s : String)
    (hpre : ∀ gw ∈ pre, (processField e args gw.1).isFail = false)
    (hk : f.argTag = some k) (habs : lookupA args k = none)
    (hreq : f.requiredTag = some s) (hparse : parseBool s = Except.error ()) :
    (∃ pre2, pre2.length = pre.length ∧
      LoadArgs e args (Dest.ptrStruct (pre ++ (f, v) :: post))
        = LoadOutcome.error (s ++ (" is not a valid \x27required\x27 tag value"))
            (Dest.ptrStruct (pre2 ++ (f, v) :: post))) ∧
    (∀ (e2 : ArgLoader) (args2 : List (String × GoValue)) (nm : String)
        (ty : GoType) (k2 : String) (r1 r2 d : Option String) (v2 : GoValue),
      lookupA args2 k2 = some v2 →
      processField e2 args2 (StructField.mk nm ty (some k2) r1 d)
        = processField e2 args2 (StructField.mk nm ty (some k2) r2 d)) := by
  constructor
  · have hstep : processField e args f
        = FieldStep.fail (s ++ (" is not a valid \x27required\x27 tag value")) := by
      simp [processField, hk, habs, hreq, hparse]
    have hload : loadFields e args ((f, v) :: post)
        = (some (s ++ (" is not a valid \x27required\x27 tag value")), (f, v) :: post) := by
      simp [loadFields, hstep]
    obtain ⟨pre2, hlen, hfront⟩ := loadFields_nofail_front e args pre ((f, v) :: post) hpre
    rw [hload] at hfront
    exact ⟨pre2, hlen, by simp [LoadArgs, hfront, loadOutcomeOf]⟩
  · intro e2 args2 nm ty k2 r1 r2 d v2 hl
    simp [processField, hl]

/-- A bool field exposed as argument "e" whose required tag does not
parse, declared after other fields in the C4 witness. -/
def exFieldE : StructField :=
  StructField.mk ("E") GoType.bool (some ("e")) (some ("banana")) none

/-- Witness for C4: field E with required tag "banana" and no raw entry
fails with the invalid-required-tag error even though the earlier field A
is present and written (a non-failing, non-skip prefix). -/
theorem loadArgs_bad_required_tag_witness :
    parseBool ("banana") = Except.error () ∧
    (∃ pre2, pre2.length = [(exFieldA, GoValue.vBool false)].length ∧
      LoadArgs defaultLoader [(("a"), GoValue.vBool true)]
          (Dest.ptrStruct ([(exFieldA, GoValue.vBool false)]
            ++ (exFieldE, GoValue.vBool false) :: []))
        = LoadOutcome.error (("banana") ++ (" is not a valid \x27required\x27 tag value"))
            (Dest.ptrStruct (pre2 ++ (exFieldE, GoValue.vBool false) :: []))) :=
  ⟨rfl, (loadArgs_bad_required_tag defaultLoader [(("a"), GoValue.vBool true)]
    [(exFieldA, GoValue.vBool false)] [] exFieldE (GoValue.vBool false)
    ("e") ("banana") (by decide) rfl rfl rfl rfl).1⟩

/-- Counterexample for C4 as stated: the same field with the unparseable
required tag "banana" populates without any error when its argument name
is present in the raw map, because the required tag is only read when the
key is absent. -/
theorem loadArgs_bad_required_tag_cex :
    LoadArgs defaultLoader [(("a"), GoValue.vBool true)]
      (Dest.ptrStruct [(exFieldC, GoValue.vBool false)])
      = LoadOutcome.ok (Dest.ptrStruct [(exFieldC, GoValue.vBool true)]) :=
  rfl

/-- Claim C5: a field lacking the arg annotation is invisible to both the
schema deriver and the populator: the schema equals the one computed with
the field deleted, and the populate loop returns the same error and the
same surrounding values with the field itself left at its prior value,
whatever its other annotations and type are. -/
theorem schema_and_load_skip_untagged (e : ArgLoader) (args : List (String × GoValue))
    (f : StructField) (hf : f.argTag = none)
    (preT postT : List StructField)
    (preV postV : List (StructField × GoValue)) (v : GoValue) :
    SafeArgsConfig e (SchemaInput.structVal (preT ++ f :: postT))
      = SafeArgsConfig e (SchemaInput.structVal (preT ++ postT)) ∧
    (∃ r pre2 post2, pre2.length = preV.length ∧
      loadFields e args (preV ++ (f, v) :: postV) = (r, pre2 ++ (f, v) :: post2) ∧
      loadFields e args (preV ++ postV) = (r, pre2 ++ post2)) := by
  constructor
  · simp [SafeArgsConfig, confFields, confFieldsAux_erase_untagged e f hf]
  · exact loadFields_skip_frame e args f (processField_skip_of_untagged e args f hf) preV postV v

/-- An untagged field carrying junk in its other annotations, for the C5
witness: neither its required tag nor its type may be consulted. -/
def exFieldX : StructField :=
  StructField.mk ("X") (GoType.named ("weird") false) none (some ("banana")) (some ("junk"))

/-- Witness for C5: the untagged field X with an unparseable required tag
and an unregistered type influences neither the schema nor the load. -/
theorem schema_and_load_skip_untagged_witness :
    exFieldX.argTag = none ∧
    (SafeArgsConfig defaultLoader (SchemaInput.structVal ([exFieldA] ++ exFieldX :: []))
      = SafeArgsConfig defaultLoader (SchemaInput.structVal ([exFieldA] ++ [])) ∧
    (∃ r pre2 post2, pre2.length = [(exFieldA, GoValue.vBool false)].length ∧
      loadFields defaultLoader [(("a"), GoValue.vBool true)]
          ([(exFieldA, GoValue.vBool false)] ++ (exFieldX, GoValue.vString ("q")) :: [])
        = (r, pre2 ++ (exFieldX, GoValue.vString ("q")) :: post2) ∧
      loadFields defaultLoader [(("a"), GoValue.vBool true)]
          ([(exFieldA, GoValue.vBool false)] ++ [])
        = (r, pre2 ++ post2))) :=
  ⟨rfl, schema_and_load_skip_untagged defaultLoader [(("a"), GoValue.vBool true)]
    exFieldX rfl [exFieldA] [] [(exFieldA, GoValue.vBool false)] []
    (GoValue.vString ("q"))⟩

/-- Claim C6 (amended): an arg-annotated field whose argument name is
absent and whose required tag is absent or parses to false is left at its
prior value and LoadArgs succeeds, provided no field's processing fails
(every required argument present, every present argument convertible,
every consulted required tag parseable). -/
theorem loadArgs_optional_missing (e : ArgLoader) (args : List (String × GoValue))
    (pre post : List (StructField × GoValue)) (f : StructField) (v : GoValue)
    (k : String)
    (hk : f.argTag = some k) (habs : lookupA args k = none)
    (hopt : f.requiredTag = none ∨
      ∃ s, f.requiredTag = some s ∧ parseBool s = Except.ok false)
    (hok : ∀ gw ∈ pre ++ (f, v) :: post, (processField e args gw.1).isFail = false) :
    ∃ pre2 post2, pre2.length = pre.length ∧
      LoadArgs e args (Dest.ptrStruct (pre ++ (f, v) :: post))
        = LoadOutcome.ok (Dest.ptrStruct (pre2 ++ (f, v) :: post2)) := by
  have hskip := processField_skip_of_optional_absent e args f k hk habs hopt
  obtain ⟨r, pre2, post2, hlen, h1, h2⟩ := loadFields_skip_frame e args f hskip pre post v
  have hnone : (loadFields e args (pre ++ (f, v) :: post)).1 = none :=
    loadFields_ok_of_nofail e args _ hok
  rw [h1] at hnone
  simp only at hnone
  refine ⟨pre2, post2, hlen, ?_⟩
  simp [LoadArgs, h1, hnone, loadOutcomeOf]

/-- Witness for C6: field D (optional, absent) keeps its value and the
call succeeds when the other field converts fine. -/
theorem loadArgs_optional_missing_witness :
    exFieldD.argTag = some ("d") ∧
    (∃ pre2 post2, pre2.length = [(exFieldA, GoValue.vBool false)].length ∧
      LoadArgs defaultLoader [(("a"), GoValue.vBool true)]
          (Dest.ptrStruct ([(exFieldA, GoValue.vBool false)]
            ++ (exFieldD, GoValue.vBool false) :: []))
        = LoadOutcome.ok (Dest.ptrStruct (pre2 ++ (exFieldD, GoValue.vBool false) :: post2))) :=
  ⟨rfl, loadArgs_optional_missing defaultLoader [(("a"), GoValue.vBool true)]
    [(exFieldA, GoValue.vBool false)] [] exFieldD (GoValue.vBool false) ("d")
    rfl rfl (Or.inl rfl) (by decide)⟩

/-- Counterexample for C6 as stated: field D is optional and absent, every
required field's argument is present and convertible (there are none), yet
LoadArgs fails, because the optional field A is present with an
inconvertible value.  The stated proviso is too weak. -/
theorem loadArgs_optional_missing_cex :
    LoadArgs defaultLoader [(("a"), GoValue.vString ("x"))]
      (Dest.ptrStruct [(exFieldA, GoValue.vBool false), (exFieldD, GoValue.vBool false)])
      = LoadOutcome.error (("cannot populate A: x is not a bool"))
          (Dest.ptrStruct [(exFieldA, GoValue.vBool false), (exFieldD, GoValue.vBool false)]) :=
  rfl

/-- Claim C8: schema derivation never fails on a struct or pointer to
struct, even when a field's type has no registered wire type: the entry
for such a field carries an absent (none) wire type together with its
description tag; a non-struct input yields the "is not a struct" error. -/
theorem safeArgsConfig_total (e : ArgLoader) (fields : List StructField)
    (f : StructField) (k d : String)
    (hmem : f ∈ fields) (hk : f.argTag = some k)
    (hwt : lookupA e.gqlTypes f.type = none)
    (huniq : ∀ f2 ∈ fields, f2.argTag = some k → f2 = f) :
    SafeArgsConfig e (SchemaInput.structVal fields) = ConfigOutcome.ok (confFields e fields) ∧
    SafeArgsConfig e (SchemaInput.ptrStruct fields) = ConfigOutcome.ok (confFields e fields) ∧
    lookupA (confFields e fields) k = some (ArgumentConfig.mk none f.descOf) ∧
    SafeArgsConfig e (SchemaInput.nonStruct d) = ConfigOutcome.error (d ++ (" is not a struct")) := by
  refine ⟨rfl, rfl, ?_, rfl⟩
  have h := lookupA_confFieldsAux_unique e k f hk fields [] hmem huniq
  rw [hwt] at h
  simpa [confFields] using h

/-- A field of an unregistered type carrying a description, for the C8
witness. -/
def exFieldY : StructField :=
  StructField.mk ("Y") (GoType.named ("weird") false) (some ("y")) none (some ("a weird one"))

/-- Witness for C8: deriving the schema of a struct holding the field Y of
the unregistered type weird succeeds, and Y's entry has an absent wire
type and its description. -/
theorem safeArgsConfig_total_witness :
    exFieldY ∈ [exFieldA, exFieldY] ∧
    exFieldY.argTag = some ("y") ∧
    lookupA defaultLoader.gqlTypes exFieldY.type = none ∧
    (SafeArgsConfig defaultLoader (SchemaInput.structVal [exFieldA, exFieldY])
        = ConfigOutcome.ok (confFields defaultLoader [exFieldA, exFieldY]) ∧
      SafeArgsConfig defaultLoader (SchemaInput.ptrStruct [exFieldA, exFieldY])
        = ConfigOutcome.ok (confFields defaultLoader [exFieldA, exFieldY]) ∧
      lookupA (confFields defaultLoader [exFieldA, exFieldY]) ("y")
        = some (ArgumentConfig.mk none exFieldY.descOf) ∧
      SafeArgsConfig defaultLoader (SchemaInput.nonStruct ("5"))
        = ConfigOutcome.error (("5") ++ (" is not a struct"))) :=
  ⟨by decide, rfl, rfl,
    safeArgsConfig_total defaultLoader [exFieldA, exFieldY] exFieldY ("y") ("5")
      (by decide) rfl rfl (by decide)⟩

/-- Claim C3: a converter registered through Register that panics during
conversion makes LoadArgs return a normal error value carrying the field
name and the panic description; the panic never reaches LoadArgs's caller
(the outcome is an error, not a panic). -/
theorem loadArgs_converter_panic (e e2 : ArgLoader) (g : GoFunc) (gql : GqlOutput)
    (o0 o1 : GoType) (hout : g.outTypes = [o0, o1])
    (hreg : Register e (RegisterArg.func g) gql = (none, e2))
    (v fv : GoValue) (p k fname : String)
    (hrun : g.run v = ConvRunResult.panics p) :
    LoadArgs e2 [(k, v)]
      (Dest.ptrStruct [(StructField.mk fname o0 (some k) none none, fv)])
      = LoadOutcome.error
          (("cannot populate ") ++ fname ++ (": ") ++ (g.name ++ (" panicked: ") ++ p))
          (Dest.ptrStruct [(StructField.mk fname o0 (some k) none none, fv)]) := by
  have hfun : lookupA e2.loaderFuncs o0 = some (wrapLoader g.name g.run) := by
    simp only [Register] at hreg
    split_ifs at hreg with h1 h2 h3 h4
    · exact absurd (congrArg Prod.fst hreg) (by simp)
    · exact absurd (congrArg Prod.fst hreg) (by simp)
    · exact absurd (congrArg Prod.fst hreg) (by simp)
    · exact absurd (congrArg Prod.fst hreg) (by simp)
    · have h2 := congrArg Prod.snd hreg
      simp only at h2
      rw [← h2, hout]
      simp only [List.getD]
      exact lookupA_insertA_self _ _ _
  have hstep : processField e2 [(k, v)] (StructField.mk fname o0 (some k) none none)
      = FieldStep.fail
          (("cannot populate ") ++ fname ++ (": ") ++ (g.name ++ (" panicked: ") ++ p)) := by
    simp [processField, lookupA, hfun, wrapLoader, hrun]
  simp [LoadArgs, loadFields, hstep, loadOutcomeOf]

/-- Witness for C3: the always-panicking converter turns its panic into a
"cannot populate M" error of LoadArgs. -/
theorem loadArgs_converter_panic_witness :
    panicFunc.run (GoValue.vInt 5) = ConvRunResult.panics ("boom") ∧
    LoadArgs pLoader [(("m"), GoValue.vInt 5)]
      (Dest.ptrStruct [(StructField.mk ("M") (GoType.named ("mytype") false)
        (some ("m")) none none, GoValue.vInt 0)])
      = LoadOutcome.error
          (("cannot populate ") ++ ("M") ++ (": ")
            ++ (("panicky") ++ (" panicked: ") ++ ("boom")))
          (Dest.ptrStruct [(StructField.mk ("M") (GoType.named ("mytype") false)
            (some ("m")) none none, GoValue.vInt 0)]) :=
  ⟨rfl, loadArgs_converter_panic Empty pLoader panicFunc (GqlOutput.other ("custom"))
    (GoType.named ("mytype") false) GoType.goError rfl rfl
    (GoValue.vInt 5) (GoValue.vInt 0) ("boom") ("m") ("M") rfl⟩

end GraphqlHelpers
